import Mathlib

set_option linter.unusedVariables false

/-!
Verification of the contract-reader repository: a shallow embedding of the
`POST /api/review` handler of `src/app/api/review/route.ts`, of the duplicate
handler in `src/unnamed/part_000`, and of the snapshot-normalization helpers,
together with proofs about the claims of the specification.

JSON values reaching the handler (the parsed LLM reply) are modelled by the
inductive `JsonValue`; JavaScript string builtins used by the handler
(`toLowerCase`, `endsWith`, `includes`, `trim`, `slice`, `String(...)`
coercion) are modelled by the `js*` functions below, operating on the
character list of a `String`.
-/

/-- Model of a JSON value (the result of `JSON.parse`).  A JSON number is
represented by its JavaScript string rendering (the result of `String(n)`),
since no code path of the repository performs numeric arithmetic on parsed
values: numbers are only ever coerced to strings. -/
inductive JsonValue where
  | null : JsonValue
  | bool : Bool → JsonValue
  | num : String → JsonValue
  | str : String → JsonValue
  | arr : List JsonValue → JsonValue
  | obj : List (String × JsonValue) → JsonValue
deriving Repr

/-- Model of JavaScript `s.toLowerCase()` (ASCII case mapping, which covers
every character the handler compares against). -/
def jsToLower (s : String) : String :=
  String.mk (s.data.map Char.toLower)

/-- Model of JavaScript `s.endsWith(suffix)`. -/
def jsEndsWith (s suffix : String) : Bool :=
  List.isSuffixOf suffix.data s.data

/-- Auxiliary substring scan: does the haystack list contain the pattern list
as a contiguous sublist? -/
def jsIncludesAux (pat : List Char) : List Char → Bool
  | [] => pat.isEmpty
  | c :: t => List.isPrefixOf pat (c :: t) || jsIncludesAux pat t

/-- Model of JavaScript `s.includes(sub)`. -/
def jsIncludes (s sub : String) : Bool :=
  jsIncludesAux sub.data s.data

/-- Model of JavaScript `s.trim()`: strip leading and trailing whitespace. -/
def jsTrim (s : String) : String :=
  String.mk (((s.data.dropWhile Char.isWhitespace).reverse.dropWhile
      Char.isWhitespace).reverse)

/-- Model of JavaScript `s.slice(0, n)`: the first `n` characters of `s`
(all of `s` when it is shorter). -/
def jsSlice (s : String) (n : Nat) : String :=
  String.mk (s.data.take n)

mutual
/-- Model of the JavaScript `String(v)` coercion on JSON values: `null`
renders as `"null"`, booleans as `"true"`/`"false"`, numbers by their stored
rendering, arrays by `Array.prototype.join(",")` (where a `null` element
renders as the empty string), and plain objects as `"[object Object]"`. -/
def jsToString : JsonValue → String
  | .null => "null"
  | .bool b => if b then "true" else "false"
  | .num s => s
  | .str s => s
  | .arr xs => String.intercalate "," (jsElems xs)
  | .obj _ => "[object Object]"

/-- Element stringification used by `Array.prototype.join`: a `null`
element yields the empty string, every other element is coerced with
`jsToString`. -/
def jsElems : List JsonValue → List String
  | [] => []
  | .null :: vs => "" :: jsElems vs
  | v :: vs => jsToString v :: jsElems vs
end

/-- Model of optional chaining `v?.k` on a JSON value: `some` of the
property value when `v` is an object that has the key, `none` (JavaScript
`undefined`) otherwise (including when `v` is `null` or a non-object). -/
def optGet (v : JsonValue) (k : String) : Option JsonValue :=
  match v with
  | .obj kvs => kvs.lookup k
  | _ => none

/-- Model of `v?.k ?? {}`: the property value unless it is absent or
JSON `null`, in which case the empty object. -/
def nullishGetObj (v : JsonValue) (k : String) : JsonValue :=
  match optGet v k with
  | some .null => .obj []
  | some w => w
  | none => .obj []

/-- Model of an HTTP response produced by the handler: a status code and the
serialized JSON body.  Response headers are outside this model. -/
structure ReviewResponse where
  status : Nat
  body : JsonValue
deriving Repr

/-- Look a key up in the JSON body of a response. -/
def bodyLookup (r : ReviewResponse) (k : String) : Option JsonValue :=
  optGet r.body k

/-- Model of one request to `POST /api/review` together with the behaviour of
the external collaborators consulted while serving it: `filePresent`,
`fname`, `mime` and `size` describe the uploaded form file; `pdfExtract` and
`docxExtract` are the outcomes of the PDF and DOCX text extractors
(`some t` = returned text `t`, `none` = threw); `llmContent` is
`completion.choices[0]?.message?.content` of the LLM reply. -/
structure ReviewRequest where
  filePresent : Bool
  fname : Option String
  mime : Option String
  size : Option Nat
  pdfExtract : Option String
  docxExtract : Option String
  llmContent : Option String

namespace RouteTs

/-!
Embedding of `src/app/api/review/route.ts`.  The helper names follow the
source.  `POST` is split into `POSTtext` (everything up to and including the
minimum-length check on the extracted text, returning either an early error
response or the extracted text) and `mkSuccess` (the code after the LLM
call), mirroring the linear structure of the handler.  The `JSON.parse`
builtin is passed in as the abstract function `parse` (`none` = the parse
threw), and the network/file collaborators are fields of `ReviewRequest`.
-/

/-- Embedding of `s_cleanStr` (route.ts lines 17-21).  The argument is the
result of an optional-chained property access, so `none` stands for
JavaScript `undefined`.  `String(input)` never throws on a JSON value, so
the `catch` branch is unreachable. -/
def s_cleanStr : Option JsonValue → String
  | some (.str s) => s
  | none => ""
  | some .null => ""
  | some v => jsToString v

/-- Conditional field of the serialized snapshot: `x || undefined` turns the
empty string into `undefined`, and `JSON.stringify` omits properties whose
value is `undefined`, so the serialized object carries the field exactly
when the cleaned string is nonempty. -/
def optEntry (k : String) (v : String) : List (String × JsonValue) :=
  if v = "" then [] else [(k, .str v)]

/-- Embedding of `s_normalizeSnapshot` (route.ts lines 22-43), at the level
of the serialized JSON object. -/
def s_normalizeSnapshot (s : JsonValue) : JsonValue :=
  let parties := s_cleanStr (optGet s "parties")
  let dates := s_cleanStr (optGet s "dates")
  let term := s_cleanStr (optGet s "term")
  let rate := s_cleanStr (optGet s "rate")
  let deliverables := s_cleanStr (optGet s "deliverables")
  let usage := s_cleanStr (optGet s "usage")
  let brandBrief := s_cleanStr (optGet s "brandBrief")
  let additionalReqs := s_cleanStr (optGet s "additionalReqs")
  let billing := s_cleanStr (optGet s "billing")
  .obj ([("parties", .str parties), ("dates", .str dates), ("term", .str term),
      ("rate", .str rate), ("deliverables", .str deliverables),
      ("usage", .str usage)]
    ++ optEntry "brandBrief" brandBrief
    ++ optEntry "additionalReqs" additionalReqs
    ++ optEntry "billing" billing)

/-- Embedding of `looksLikePDF` (route.ts lines 53-55). -/
def looksLikePDF (filename mime : Option String) : Bool :=
  (match mime with | some m => jsIncludes m "pdf" | none => false)
  || (match filename with | some f => jsEndsWith (jsToLower f) ".pdf" | none => false)

/-- Embedding of `looksLikeDOCX` (route.ts lines 56-59). -/
def looksLikeDOCX (filename mime : Option String) : Bool :=
  let n := match filename with | some f => jsToLower f | none => ""
  (match mime with | some m => jsIncludes m "word" | none => false)
  || jsEndsWith n ".docx" || jsEndsWith n ".doc"

/-- Size gate of route.ts line 71: `typeof size === "number" && size > MAX_BYTES`. -/
def sizeTooLarge (size : Option Nat) : Bool :=
  match size with
  | some n => n > 15 * 1024 * 1024
  | none => false

/-- Extension allow-list of route.ts line 74, the regex `\.(pdf|docx?|rtf)$` with
the `i` flag. -/
def extAllowed (f : String) : Bool :=
  jsEndsWith (jsToLower f) ".pdf" || jsEndsWith (jsToLower f) ".doc"
  || jsEndsWith (jsToLower f) ".docx" || jsEndsWith (jsToLower f) ".rtf"

/-- Condition of route.ts line 75: `fname && !allowed.test(fname)` (a missing
or empty filename is falsy and skips the check). -/
def fnameRejected (fname : Option String) : Bool :=
  match fname with
  | some f => f != "" && !(extAllowed f)
  | none => false

/-- The 400 response of route.ts line 65. -/
def resp400 : ReviewResponse :=
  ⟨400, .obj [("error", .str "No file provided")]⟩

/-- The 413 response of route.ts line 72. -/
def resp413 : ReviewResponse :=
  ⟨413, .obj [("error", .str "File too large (max 15MB).")]⟩

/-- The 415 response of route.ts line 76. -/
def resp415 : ReviewResponse :=
  ⟨415, .obj [("error", .str "Unsupported file type. Please upload a PDF or Word document.")]⟩

/-- The 422 response of route.ts line 85 (PDF extraction threw). -/
def resp422pdf : ReviewResponse :=
  ⟨422, .obj [("error", .str "Unable to parse PDF. If it\x27s password-protected, export an unlocked copy and re-upload.")]⟩

/-- The 422 response of route.ts line 88 (DOCX extraction threw). -/
def resp422docx : ReviewResponse :=
  ⟨422, .obj [("error", .str "Unable to read Word file. Try saving as DOCX or PDF and re-upload.")]⟩

/-- The 422 response of route.ts line 94 (no readable text). -/
def resp422short : ReviewResponse :=
  ⟨422, .obj [("error", .str "We couldn\x27t extract readable text. Please export to PDF or DOCX and re-upload.")]⟩

/-- Embedding of the extraction dispatch, route.ts lines 82-92: PDF branch,
DOCX branch (each turning an extractor throw into a 422), or the fallback
that tries PDF then DOCX, swallowing errors. -/
def extractStage (req : ReviewRequest) : Except ReviewResponse String :=
  if looksLikePDF req.fname req.mime then
    match req.pdfExtract with
    | some t => .ok t
    | none => .error resp422pdf
  else if looksLikeDOCX req.fname req.mime
      || jsEndsWith (jsToLower (req.fname.getD "")) ".doc" then
    match req.docxExtract with
    | some t => .ok t
    | none => .error resp422docx
  else
    .ok (let t := req.pdfExtract.getD ""
         if t = "" then req.docxExtract.getD "" else t)

/-- Embedding of route.ts lines 63-95: the gate checks and text extraction of
`POST`, up to and including the minimum-length check.  Returns the extracted
text (before truncation) or the early error response. -/
def POSTtext (req : ReviewRequest) : Except ReviewResponse String :=
  if !req.filePresent then .error resp400
  else if sizeTooLarge req.size then .error resp413
  else if fnameRejected req.fname then .error resp415
  else match extractStage req with
    | .error r => .error r
    | .ok text =>
      if text = "" ∨ (jsTrim text).length < 20 then .error resp422short
      else .ok text

/-- The filter predicate of route.ts line 125: `/late fee/i.test(c)`, where
`test` coerces its argument to a string. -/
def lateFeeTest (c : JsonValue) : Bool :=
  jsIncludes (jsToLower (jsToString c)) "late fee"

/-- Embedding of route.ts lines 119-120: the LLM reply content defaulted to
the two-character object literal, then `JSON.parse` (modelled by the abstract
`parse`, `none` = threw), with a parse failure caught and replaced by the
empty object. -/
def llmData (parse : String → Option JsonValue) (llmContent : Option String) : JsonValue :=
  let content := llmContent.getD "\x7b\x7d"
  match parse content with
  | some v => v
  | none => .obj []

/-- The `risks` field of route.ts line 124: `Array.isArray(data?.risks) ? data.risks : []`. -/
def risksOf (data : JsonValue) : JsonValue :=
  match optGet data "risks" with
  | some (.arr xs) => .arr xs
  | _ => .arr []

/-- The `counters` field of route.ts line 125: the counters array (empty when
not an array) with every element matching `/late fee/i` filtered out. -/
def countersOf (data : JsonValue) : JsonValue :=
  match optGet data "counters" with
  | some (.arr xs) => .arr (xs.filter (fun c => !(lateFeeTest c)))
  | _ => .arr []

/-- Embedding of route.ts lines 119-132: the code after the LLM call
assembling the 200 response from the parsed reply and the truncated
contract text. -/
def mkSuccess (parse : String → Option JsonValue) (llmContent : Option String)
    (trimmed : String) : ReviewResponse :=
  let data := llmData parse llmContent
  { status := 200
    body := .obj [
      ("snapshot", s_normalizeSnapshot (nullishGetObj data "snapshot")),
      ("risks", risksOf data),
      ("counters", countersOf data),
      ("rawText", .str trimmed)] }

/-- Embedding of the whole `POST` handler of route.ts (lines 61-137): the
early-exit stages, then truncation to 50,000 characters and the post-LLM
response assembly. -/
def POST (parse : String → Option JsonValue) (req : ReviewRequest) : ReviewResponse :=
  match POSTtext req with
  | .error r => r
  | .ok text => mkSuccess parse req.llmContent (jsSlice text 50000)

/-- The user message of route.ts lines 108-110: the fixed prefix followed by
the truncated contract text. -/
def llmUserMessage (trimmed : String) : String :=
  "Contract text:\n\n" ++ trimmed

/-- The user message actually forwarded to the LLM for a given request:
`some` of the message when the handler reaches the LLM call (route.ts
line 112), `none` when it exits early. -/
def sentUserMessage (req : ReviewRequest) : Option String :=
  match POSTtext req with
  | .error _ => none
  | .ok text => some (llmUserMessage (jsSlice text 50000))

end RouteTs

namespace Part000

/-!
Embedding of the handler in `src/unnamed/part_000`, the CORS-enabled copy of
the route.  Its helpers and `POST` body (part_000 lines 41-176) repeat those
of route.ts; the file differs in wrapping every reply in `corsJson`, which
only changes response headers, outside the status/body model used here.
-/

/-- Embedding of `s_cleanStr` (part_000 lines 41-45). -/
def s_cleanStr : Option JsonValue → String
  | some (.str s) => s
  | none => ""
  | some .null => ""
  | some v => jsToString v

/-- Conditional field of the serialized snapshot (part_000 lines 64-66). -/
def optEntry (k : String) (v : String) : List (String × JsonValue) :=
  if v = "" then [] else [(k, .str v)]

/-- Embedding of `s_normalizeSnapshot` (part_000 lines 47-68). -/
def s_normalizeSnapshot (s : JsonValue) : JsonValue :=
  let parties := s_cleanStr (optGet s "parties")
  let dates := s_cleanStr (optGet s "dates")
  let term := s_cleanStr (optGet s "term")
  let rate := s_cleanStr (optGet s "rate")
  let deliverables := s_cleanStr (optGet s "deliverables")
  let usage := s_cleanStr (optGet s "usage")
  let brandBrief := s_cleanStr (optGet s "brandBrief")
  let additionalReqs := s_cleanStr (optGet s "additionalReqs")
  let billing := s_cleanStr (optGet s "billing")
  .obj ([("parties", .str parties), ("dates", .str dates), ("term", .str term),
      ("rate", .str rate), ("deliverables", .str deliverables),
      ("usage", .str usage)]
    ++ optEntry "brandBrief" brandBrief
    ++ optEntry "additionalReqs" additionalReqs
    ++ optEntry "billing" billing)

/-- Embedding of `looksLikePDF` (part_000 lines 80-82). -/
def looksLikePDF (filename mime : Option String) : Bool :=
  (match mime with | some m => jsIncludes m "pdf" | none => false)
  || (match filename with | some f => jsEndsWith (jsToLower f) ".pdf" | none => false)

/-- Embedding of `looksLikeDOCX` (part_000 lines 84-87). -/
def looksLikeDOCX (filename mime : Option String) : Bool :=
  let n := match filename with | some f => jsToLower f | none => ""
  (match mime with | some m => jsIncludes m "word" | none => false)
  || jsEndsWith n ".docx" || jsEndsWith n ".doc"

/-- Size gate of part_000 line 103. -/
def sizeTooLarge (size : Option Nat) : Bool :=
  match size with
  | some n => n > 15 * 1024 * 1024
  | none => false

/-- Extension allow-list regex of part_000 line 107. -/
def extAllowed (f : String) : Bool :=
  jsEndsWith (jsToLower f) ".pdf" || jsEndsWith (jsToLower f) ".doc"
  || jsEndsWith (jsToLower f) ".docx" || jsEndsWith (jsToLower f) ".rtf"

/-- Condition of part_000 line 108. -/
def fnameRejected (fname : Option String) : Bool :=
  match fname with
  | some f => f != "" && !(extAllowed f)
  | none => false

/-- The 400 response of part_000 line 96 (body only; `corsJson` adds headers). -/
def resp400 : ReviewResponse :=
  ⟨400, .obj [("error", .str "No file provided")]⟩

/-- The 413 response of part_000 line 104. -/
def resp413 : ReviewResponse :=
  ⟨413, .obj [("error", .str "File too large (max 15MB).")]⟩

/-- The 415 response of part_000 lines 109-112. -/
def resp415 : ReviewResponse :=
  ⟨415, .obj [("error", .str "Unsupported file type. Please upload a PDF or Word document.")]⟩

/-- The 422 response of part_000 line 121 (PDF extraction threw). -/
def resp422pdf : ReviewResponse :=
  ⟨422, .obj [("error", .str "Unable to parse PDF. If it\x27s password-protected, export an unlocked copy and re-upload.")]⟩

/-- The 422 response of part_000 line 124 (DOCX extraction threw). -/
def resp422docx : ReviewResponse :=
  ⟨422, .obj [("error", .str "Unable to read Word file. Try saving as DOCX or PDF and re-upload.")]⟩

/-- The 422 response of part_000 line 131 (no readable text). -/
def resp422short : ReviewResponse :=
  ⟨422, .obj [("error", .str "We couldn\x27t extract readable text. Please export to PDF or DOCX and re-upload.")]⟩

/-- Embedding of the extraction dispatch, part_000 lines 118-128. -/
def extractStage (req : ReviewRequest) : Except ReviewResponse String :=
  if looksLikePDF req.fname req.mime then
    match req.pdfExtract with
    | some t => .ok t
    | none => .error resp422pdf
  else if looksLikeDOCX req.fname req.mime
      || jsEndsWith (jsToLower (req.fname.getD "")) ".doc" then
    match req.docxExtract with
    | some t => .ok t
    | none => .error resp422docx
  else
    .ok (let t := req.pdfExtract.getD ""
         if t = "" then req.docxExtract.getD "" else t)

/-- Embedding of part_000 lines 94-132: the gate checks and text extraction. -/
def POSTtext (req : ReviewRequest) : Except ReviewResponse String :=
  if !req.filePresent then .error resp400
  else if sizeTooLarge req.size then .error resp413
  else if fnameRejected req.fname then .error resp415
  else match extractStage req with
    | .error r => .error r
    | .ok text =>
      if text = "" ∨ (jsTrim text).length < 20 then .error resp422short
      else .ok text

/-- The filter predicate of part_000 line 166. -/
def lateFeeTest (c : JsonValue) : Bool :=
  jsIncludes (jsToLower (jsToString c)) "late fee"

/-- Embedding of part_000 lines 159-170: the code after the LLM call. -/
def mkSuccess (parse : String → Option JsonValue) (llmContent : Option String)
    (trimmed : String) : ReviewResponse :=
  let content := llmContent.getD "\x7b\x7d"
  let data := match parse content with
    | some v => v
    | none => .obj []
  { status := 200
    body := .obj [
      ("snapshot", s_normalizeSnapshot (nullishGetObj data "snapshot")),
      ("risks", match optGet data "risks" with
        | some (.arr xs) => .arr xs
        | _ => .arr []),
      ("counters", match optGet data "counters" with
        | some (.arr xs) => .arr (xs.filter (fun c => !(lateFeeTest c)))
        | _ => .arr []),
      ("rawText", .str trimmed)] }

/-- Embedding of the whole `POST` handler of part_000 (lines 92-176). -/
def POST (parse : String → Option JsonValue) (req : ReviewRequest) : ReviewResponse :=
  match POSTtext req with
  | .error r => r
  | .ok text => mkSuccess parse req.llmContent (jsSlice text 50000)

end Part000

/-!
Helper lemmas shared by the claim proofs.
-/

/-- Dropping a prefix cannot lengthen a list. -/
theorem length_dropWhile_le' {α : Type} (p : α → Bool) (l : List α) :
    (l.dropWhile p).length ≤ l.length := by
  induction l with
  | nil => simp [List.dropWhile]
  | cons a t ih =>
    rw [List.dropWhile_cons]
    split
    · exact Nat.le_trans ih (Nat.le_succ _)
    · exact Nat.le_refl _

/-- Trimming cannot lengthen a string. -/
theorem jsTrim_length_le (s : String) : (jsTrim s).length ≤ s.length := by
  show (((s.data.dropWhile Char.isWhitespace).reverse.dropWhile
      Char.isWhitespace).reverse).length ≤ s.data.length
  rw [List.length_reverse]
  refine Nat.le_trans (length_dropWhile_le' _ _) ?_
  rw [List.length_reverse]
  exact length_dropWhile_le' _ _

namespace RouteTs

/-- Membership in a conditional snapshot entry pins the pair down. -/
theorem mem_optEntry {p : String × JsonValue} {k v : String}
    (h : p ∈ optEntry k v) : p = (k, .str v) := by
  unfold optEntry at h
  split at h
  · cases h
  · simpa using h

/-- Structure of a normalized snapshot: it is an object, every field value is
a JSON string, and the six mandatory fields are present. -/
theorem normalizeSnapshot_fields (s : JsonValue) :
    ∃ fields, s_normalizeSnapshot s = .obj fields
      ∧ (∀ p ∈ fields, ∃ t, p.2 = JsonValue.str t)
      ∧ (∀ k ∈ (["parties", "dates", "term", "rate", "deliverables", "usage"] : List String),
          ∃ t, fields.lookup k = some (JsonValue.str t)) := by
  refine ⟨_, rfl, ?_, ?_⟩
  · intro p hp
    simp only [List.mem_append, List.mem_cons, List.not_mem_nil, or_false] at hp
    rcases hp with (((rfl | rfl | rfl | rfl | rfl | rfl) | h) | h) | h
    · exact ⟨_, rfl⟩
    · exact ⟨_, rfl⟩
    · exact ⟨_, rfl⟩
    · exact ⟨_, rfl⟩
    · exact ⟨_, rfl⟩
    · exact ⟨_, rfl⟩
    · exact ⟨_, by rw [mem_optEntry h]⟩
    · exact ⟨_, by rw [mem_optEntry h]⟩
    · exact ⟨_, by rw [mem_optEntry h]⟩
  · intro k hk
    fin_cases hk
    · exact ⟨_, rfl⟩
    · exact ⟨_, rfl⟩
    · exact ⟨_, rfl⟩
    · exact ⟨_, rfl⟩
    · exact ⟨_, rfl⟩
    · exact ⟨_, rfl⟩

/-- The `snapshot` field of an assembled success response. -/
theorem bodyLookup_mkSuccess_snapshot (parse : String → Option JsonValue)
    (c : Option String) (t : String) :
    bodyLookup (mkSuccess parse c t) "snapshot"
      = some (s_normalizeSnapshot (nullishGetObj (llmData parse c) "snapshot")) := rfl

/-- The `risks` field of an assembled success response. -/
theorem bodyLookup_mkSuccess_risks (parse : String → Option JsonValue)
    (c : Option String) (t : String) :
    bodyLookup (mkSuccess parse c t) "risks" = some (risksOf (llmData parse c)) := rfl

/-- The `counters` field of an assembled success response. -/
theorem bodyLookup_mkSuccess_counters (parse : String → Option JsonValue)
    (c : Option String) (t : String) :
    bodyLookup (mkSuccess parse c t) "counters" = some (countersOf (llmData parse c)) := rfl

/-- The `rawText` field of an assembled success response. -/
theorem bodyLookup_mkSuccess_rawText (parse : String → Option JsonValue)
    (c : Option String) (t : String) :
    bodyLookup (mkSuccess parse c t) "rawText" = some (.str t) := rfl

/-- An error of the extraction dispatch is one of the two 422 responses. -/
theorem extractStage_error (req : ReviewRequest) (r : ReviewResponse)
    (h : extractStage req = .error r) : r = resp422pdf ∨ r = resp422docx := by
  unfold extractStage at h
  split at h
  · split at h
    · exact absurd h (by simp)
    · injection h with h2
      exact Or.inl h2.symm
  · split at h
    · split at h
      · exact absurd h (by simp)
      · injection h with h2
        exact Or.inr h2.symm
    · exact absurd h (by simp)

/-- Every early-exit response of the handler has a non-200 status. -/
theorem POSTtext_error_status (req : ReviewRequest) (r : ReviewResponse)
    (h : POSTtext req = .error r) : r.status ≠ 200 := by
  unfold POSTtext at h
  split at h
  · injection h with h2
    rw [← h2]
    decide
  · split at h
    · injection h with h2
      rw [← h2]
      decide
    · split at h
      · injection h with h2
        rw [← h2]
        decide
      · split at h
        · rename_i r' heq
          injection h with h2
          rcases extractStage_error _ _ heq with e | e <;> rw [← h2, e] <;> decide
        · split at h
          · injection h with h2
            rw [← h2]
            decide
          · exact absurd h (by simp)

/-- A 200 response can only come from the success path: the gates and the
length check passed on some extracted text, and the response is the
assembled success response for its truncation. -/
theorem POST_200 (parse : String → Option JsonValue) (req : ReviewRequest)
    (h : (POST parse req).status = 200) :
    ∃ text, POSTtext req = .ok text
      ∧ POST parse req = mkSuccess parse req.llmContent (jsSlice text 50000) := by
  cases hx : POSTtext req with
  | error r =>
    exfalso
    have hr : POST parse req = r := by unfold POST; rw [hx]
    exact POSTtext_error_status req r hx (hr ▸ h)
  | ok t =>
    refine ⟨t, rfl, ?_⟩
    unfold POST
    rw [hx]

end RouteTs

/-!
Concrete inputs used by witnesses and counterexamples.
-/

/-- A `JSON.parse` oracle that always throws (the content is unparseable). -/
def parseNone : String → Option JsonValue := fun _ => none

/-- A request that passes every gate: a small PDF whose extraction yields a
39-character contract text. -/
def okReq : ReviewRequest :=
  { filePresent := true
    fname := some "contract.pdf"
    mime := some "application/pdf"
    size := some 1000
    pdfExtract := some "This agreement is made between A and B."
    docxExtract := none
    llmContent := some "not json" }

/-!
Claim theorems.
-/

/-- C1: in every 200 response of `POST /api/review`, the snapshot is a JSON
object each of whose fields holds a string value (so no field is `null`, and
an absent optional field is simply not a field of the object), and the six
mandatory fields (parties, dates, term, rate, deliverables, usage) are
always present. -/
theorem c1_snapshot_fields_are_strings (parse : String → Option JsonValue)
    (req : ReviewRequest) (h : (RouteTs.POST parse req).status = 200) :
    ∃ sfields, bodyLookup (RouteTs.POST parse req) "snapshot" = some (.obj sfields)
      ∧ (∀ p ∈ sfields, ∃ t, p.2 = JsonValue.str t)
      ∧ (∀ k ∈ (["parties", "dates", "term", "rate", "deliverables", "usage"] : List String),
          ∃ t, sfields.lookup k = some (JsonValue.str t)) := by
  obtain ⟨text, -, heq⟩ := RouteTs.POST_200 parse req h
  rw [heq, RouteTs.bodyLookup_mkSuccess_snapshot]
  obtain ⟨fields, hf, hstr, hmand⟩ := RouteTs.normalizeSnapshot_fields
    (nullishGetObj (RouteTs.llmData parse req.llmContent) "snapshot")
  exact ⟨fields, by rw [hf], hstr, hmand⟩

/-- Witness for C1 at a concrete request whose LLM reply fails to parse. -/
theorem c1_witness :
    (RouteTs.POST parseNone okReq).status = 200
    ∧ ∃ sfields, bodyLookup (RouteTs.POST parseNone okReq) "snapshot" = some (.obj sfields)
      ∧ (∀ p ∈ sfields, ∃ t, p.2 = JsonValue.str t)
      ∧ (∀ k ∈ (["parties", "dates", "term", "rate", "deliverables", "usage"] : List String),
          ∃ t, sfields.lookup k = some (JsonValue.str t)) :=
  ⟨rfl, c1_snapshot_fields_are_strings parseNone okReq rfl⟩

/-- A `JSON.parse` oracle returning a reply whose counters mention a late
fee in mixed case. -/
def parseC2 : String → Option JsonValue := fun _ =>
  some (.obj [("counters", .arr [.str "Cap revisions at two rounds",
    .str "Waive the LATE FEE entirely"])])

/-- C2: in every 200 response of `POST /api/review`, whatever the request
and the LLM reply, no element of the counters array matches `/late fee/i`. -/
theorem c2_counters_never_late_fee (parse : String → Option JsonValue)
    (req : ReviewRequest) (h : (RouteTs.POST parse req).status = 200) :
    ∃ cs, bodyLookup (RouteTs.POST parse req) "counters" = some (.arr cs)
      ∧ ∀ c ∈ cs, RouteTs.lateFeeTest c = false := by
  obtain ⟨text, -, heq⟩ := RouteTs.POST_200 parse req h
  rw [heq, RouteTs.bodyLookup_mkSuccess_counters]
  unfold RouteTs.countersOf
  cases hg : optGet (RouteTs.llmData parse req.llmContent) "counters" with
  | none => exact ⟨[], rfl, by simp⟩
  | some v =>
    cases v with
    | arr xs =>
      refine ⟨xs.filter (fun c => !(RouteTs.lateFeeTest c)), rfl, ?_⟩
      intro c hc
      have hp := (List.mem_filter.mp hc).2
      simpa using hp
    | null => exact ⟨[], rfl, by simp⟩
    | bool b => exact ⟨[], rfl, by simp⟩
    | num s => exact ⟨[], rfl, by simp⟩
    | str s => exact ⟨[], rfl, by simp⟩
    | obj o => exact ⟨[], rfl, by simp⟩

/-- Witness for C2 at a reply whose counters do mention a late fee. -/
theorem c2_witness :
    (RouteTs.POST parseC2 okReq).status = 200
    ∧ ∃ cs, bodyLookup (RouteTs.POST parseC2 okReq) "counters" = some (.arr cs)
      ∧ ∀ c ∈ cs, RouteTs.lateFeeTest c = false :=
  ⟨rfl, c2_counters_never_late_fee parseC2 okReq rfl⟩

/-- C3: snapshot normalization maps a string to itself, maps `undefined` and
`null` to the empty string, maps any other value to its string form or the
empty string, and the six mandatory fields of a normalized snapshot are
always present with string values. -/
theorem c3_cleanStr_normalization (v : JsonValue) (s : String) :
    RouteTs.s_cleanStr (some (.str s)) = s
    ∧ RouteTs.s_cleanStr none = ""
    ∧ RouteTs.s_cleanStr (some .null) = ""
    ∧ (RouteTs.s_cleanStr (some v) = jsToString v ∨ RouteTs.s_cleanStr (some v) = "")
    ∧ ∃ fields, RouteTs.s_normalizeSnapshot v = .obj fields
        ∧ ∀ k ∈ (["parties", "dates", "term", "rate", "deliverables", "usage"] : List String),
            ∃ t, fields.lookup k = some (JsonValue.str t) := by
  refine ⟨rfl, rfl, rfl, ?_, ?_⟩
  · cases v with
    | null => exact Or.inr rfl
    | bool b => exact Or.inl rfl
    | num t => exact Or.inl rfl
    | str t => exact Or.inl rfl
    | arr xs => exact Or.inl rfl
    | obj o => exact Or.inl rfl
  · obtain ⟨fields, hf, -, hmand⟩ := RouteTs.normalizeSnapshot_fields v
    exact ⟨fields, hf, hmand⟩

/-- C4: when the gates pass and the LLM reply fails to parse as JSON, the
handler still returns 200, with the snapshot normalized from the empty
object (mandatory fields empty, optional fields absent), empty risks and
counters, and the truncated extracted text as `rawText`. -/
theorem c4_parse_failure_defaults (parse : String → Option JsonValue)
    (req : ReviewRequest) (text : String)
    (h1 : RouteTs.POSTtext req = .ok text)
    (h2 : parse (req.llmContent.getD "\x7b\x7d") = none) :
    RouteTs.POST parse req = ⟨200, .obj [
      ("snapshot", .obj [("parties", .str ""), ("dates", .str ""), ("term", .str ""),
        ("rate", .str ""), ("deliverables", .str ""), ("usage", .str "")]),
      ("risks", .arr []),
      ("counters", .arr []),
      ("rawText", .str (jsSlice text 50000))]⟩ := by
  have hP : RouteTs.POST parse req
      = RouteTs.mkSuccess parse req.llmContent (jsSlice text 50000) := by
    unfold RouteTs.POST
    rw [h1]
  rw [hP]
  simp only [RouteTs.mkSuccess, RouteTs.llmData, h2]
  rfl

/-- Witness for C4: a concrete passing request whose reply is unparseable. -/
theorem c4_witness :
    RouteTs.POSTtext okReq = .ok "This agreement is made between A and B."
    ∧ parseNone (okReq.llmContent.getD "\x7b\x7d") = none
    ∧ RouteTs.POST parseNone okReq = ⟨200, .obj [
      ("snapshot", .obj [("parties", .str ""), ("dates", .str ""), ("term", .str ""),
        ("rate", .str ""), ("deliverables", .str ""), ("usage", .str "")]),
      ("risks", .arr []),
      ("counters", .arr []),
      ("rawText", .str (jsSlice "This agreement is made between A and B." 50000))]⟩ :=
  ⟨rfl, rfl, c4_parse_failure_defaults parseNone okReq _ rfl rfl⟩

/-- Claim-side value of an optional snapshot field in a well-formed reply:
the schema allows a string or JSON `null`. -/
def optJson : Option String → JsonValue
  | some s => .str s
  | none => .null

/-- Claim-side presence map for an optional snapshot field of a well-formed
reply: a string value keeps the field, a JSON `null` drops it. -/
def optSide (k : String) : Option String → List (String × JsonValue)
  | some s => [(k, .str s)]
  | none => []

/-- Normalizing a well-formed optional field (null, or a nonempty string)
reproduces the claim-side presence map. -/
theorem optEntry_optSide (k : String) (o : Option String)
    (ho : ∀ s, o = some s → s ≠ "") :
    RouteTs.optEntry k (RouteTs.s_cleanStr (some (optJson o))) = optSide k o := by
  cases o with
  | none => rfl
  | some s =>
    have hs : s ≠ "" := ho s rfl
    simp [RouteTs.optEntry, RouteTs.s_cleanStr, optSide, optJson, hs]

/-- C5 (amended): a well-formed LLM reply in which no counter matches
`/late fee/i` and every optional snapshot field is `null` or a nonempty
string passes through unchanged: the mandatory snapshot strings, the risks
array and the counters array are returned as-is, each optional field is
present exactly when non-null, and `rawText` is the truncated text. -/
theorem c5_wellformed_roundtrip (parse : String → Option JsonValue)
    (req : ReviewRequest) (text : String)
    (dfields sfields : List (String × JsonValue)) (rs cs : List JsonValue)
    (pa da te ra de us : String) (bb ar bi : Option String)
    (h1 : RouteTs.POSTtext req = .ok text)
    (h2 : parse (req.llmContent.getD "\x7b\x7d") = some (.obj dfields))
    (hsnap : dfields.lookup "snapshot" = some (.obj sfields))
    (hpa : sfields.lookup "parties" = some (.str pa))
    (hda : sfields.lookup "dates" = some (.str da))
    (hte : sfields.lookup "term" = some (.str te))
    (hra : sfields.lookup "rate" = some (.str ra))
    (hde : sfields.lookup "deliverables" = some (.str de))
    (hus : sfields.lookup "usage" = some (.str us))
    (hbb : sfields.lookup "brandBrief" = some (optJson bb))
    (har : sfields.lookup "additionalReqs" = some (optJson ar))
    (hbi : sfields.lookup "billing" = some (optJson bi))
    (hbb2 : ∀ s, bb = some s → s ≠ "")
    (har2 : ∀ s, ar = some s → s ≠ "")
    (hbi2 : ∀ s, bi = some s → s ≠ "")
    (hrisks : dfields.lookup "risks" = some (.arr rs))
    (hcnt : dfields.lookup "counters" = some (.arr cs))
    (hcstr : ∀ c ∈ cs, ∃ s, c = JsonValue.str s)
    (hnolate : ∀ c ∈ cs, RouteTs.lateFeeTest c = false) :
    RouteTs.POST parse req = ⟨200, .obj [
      ("snapshot", .obj ([("parties", .str pa), ("dates", .str da), ("term", .str te),
          ("rate", .str ra), ("deliverables", .str de), ("usage", .str us)]
        ++ optSide "brandBrief" bb ++ optSide "additionalReqs" ar ++ optSide "billing" bi)),
      ("risks", .arr rs),
      ("counters", .arr cs),
      ("rawText", .str (jsSlice text 50000))]⟩ := by
  have hP : RouteTs.POST parse req
      = RouteTs.mkSuccess parse req.llmContent (jsSlice text 50000) := by
    unfold RouteTs.POST
    rw [h1]
  have hdata : RouteTs.llmData parse req.llmContent = .obj dfields := by
    simp only [RouteTs.llmData, h2]
  have hsnapval : nullishGetObj (.obj dfields) "snapshot" = .obj sfields := by
    simp only [nullishGetObj, optGet, hsnap]
  have hnorm : RouteTs.s_normalizeSnapshot (.obj sfields)
      = .obj ([("parties", .str pa), ("dates", .str da), ("term", .str te),
          ("rate", .str ra), ("deliverables", .str de), ("usage", .str us)]
        ++ optSide "brandBrief" bb ++ optSide "additionalReqs" ar ++ optSide "billing" bi) := by
    simp only [RouteTs.s_normalizeSnapshot, optGet]
    rw [hpa, hda, hte, hra, hde, hus, hbb, har, hbi]
    rw [optEntry_optSide "brandBrief" bb hbb2, optEntry_optSide "additionalReqs" ar har2,
      optEntry_optSide "billing" bi hbi2]
    simp only [RouteTs.s_cleanStr]
  have hrisks2 : RouteTs.risksOf (.obj dfields) = .arr rs := by
    simp only [RouteTs.risksOf, optGet, hrisks]
  have hcnt2 : RouteTs.countersOf (.obj dfields) = .arr cs := by
    simp only [RouteTs.countersOf, optGet, hcnt]
    congr 1
    refine List.filter_eq_self.mpr ?_
    intro c hc
    simp [hnolate c hc]
  rw [hP]
  simp only [RouteTs.mkSuccess]
  rw [hdata, hsnapval, hnorm, hrisks2, hcnt2]

/-- A well-formed reply (per the claimed schema) whose counters mention a
late fee. -/
def c5data : JsonValue := .obj [
  ("snapshot", .obj [("parties", .str "A and B"), ("dates", .str "Jan 1"),
    ("term", .str "30 days"), ("rate", .str "$100"), ("deliverables", .str "1 video"),
    ("usage", .str "organic"), ("brandBrief", .null), ("additionalReqs", .null),
    ("billing", .null)]),
  ("risks", .arr []),
  ("counters", .arr [.str "Remove the late fee clause"])]

/-- A `JSON.parse` oracle returning `c5data`. -/
def parseC5 : String → Option JsonValue := fun _ => some c5data

/-- Counterexample to C5 as stated: the reply `c5data` matches the requested
schema (in particular its single counter is a string), yet the 200 response
returns an empty counters array, so the counters are not unchanged. -/
theorem c5_counterexample :
    (RouteTs.POST parseC5 okReq).status = 200
    ∧ (∀ c ∈ ([JsonValue.str "Remove the late fee clause"] : List JsonValue),
        ∃ s, c = JsonValue.str s)
    ∧ bodyLookup (RouteTs.POST parseC5 okReq) "counters" = some (.arr [])
    ∧ JsonValue.arr [] ≠ JsonValue.arr [.str "Remove the late fee clause"] := by
  refine ⟨rfl, ?_, rfl, ?_⟩
  · intro c hc
    simp only [List.mem_singleton] at hc
    exact ⟨_, hc⟩
  · intro hEq
    simp at hEq

/-- A fully well-formed reply with no late-fee counter, used to witness the
amended C5. -/
def c5wData : JsonValue := .obj [
  ("snapshot", .obj [("parties", .str "A and B"), ("dates", .str "Jan 1"),
    ("term", .str "30 days"), ("rate", .str "$100"), ("deliverables", .str "1 video"),
    ("usage", .str "organic"), ("brandBrief", .str "Winter launch"),
    ("additionalReqs", .null), ("billing", .null)]),
  ("risks", .arr [.obj [("label", .str "Exclusivity"), ("level", .str "High")]]),
  ("counters", .arr [.str "Cap revisions at two rounds"])]

/-- A `JSON.parse` oracle returning `c5wData`. -/
def parseC5w : String → Option JsonValue := fun _ => some c5wData

/-- Witness for the amended C5 at the concrete reply `c5wData`. -/
theorem c5_witness :
    RouteTs.POST parseC5w okReq = ⟨200, .obj [
      ("snapshot", .obj ([("parties", .str "A and B"), ("dates", .str "Jan 1"),
          ("term", .str "30 days"), ("rate", .str "$100"),
          ("deliverables", .str "1 video"), ("usage", .str "organic")]
        ++ optSide "brandBrief" (some "Winter launch")
        ++ optSide "additionalReqs" none ++ optSide "billing" none)),
      ("risks", .arr [.obj [("label", .str "Exclusivity"), ("level", .str "High")]]),
      ("counters", .arr [.str "Cap revisions at two rounds"]),
      ("rawText", .str (jsSlice "This agreement is made between A and B." 50000))]⟩ :=
  c5_wellformed_roundtrip parseC5w okReq _ _ _ _ _
    "A and B" "Jan 1" "30 days" "$100" "1 video" "organic"
    (some "Winter launch") none none
    rfl rfl rfl rfl rfl rfl rfl rfl rfl rfl rfl rfl
    (fun s h => by injection h with h2; subst h2; decide)
    (fun s h => by cases h)
    (fun s h => by cases h)
    rfl rfl
    (by intro c hc
        simp only [List.mem_singleton] at hc
        exact ⟨_, hc⟩)
    (by intro c hc
        simp only [List.mem_singleton] at hc
        subst hc
        rfl)

/-- A request with an oversized file carrying a disallowed extension. -/
def oversizedBadExtReq : ReviewRequest :=
  { filePresent := true
    fname := some "big.txt"
    mime := none
    size := some 16777216
    pdfExtract := none
    docxExtract := none
    llmContent := none }

/-- Counterexample to C6 as stated: a 16MB upload named `big.txt` has a
disallowed extension, yet the handler answers 413 (size check first), not
415. -/
theorem c6_counterexample :
    RouteTs.extAllowed "big.txt" = false
    ∧ RouteTs.POST parseNone oversizedBadExtReq = RouteTs.resp413
    ∧ RouteTs.resp413.status ≠ 415 :=
  ⟨rfl, rfl, by decide⟩

/-- C6 (amended): when a file is present, not over the 15MB limit, and its
nonempty filename fails the extension allow-list, the handler answers 415
with the fixed JSON error body — whatever the extraction oracles and LLM
reply, so text extraction is never attempted. -/
theorem c6_unsupported_extension_415 (parse : String → Option JsonValue)
    (req : ReviewRequest) (f : String)
    (h1 : req.filePresent = true)
    (h2 : RouteTs.sizeTooLarge req.size = false)
    (h3 : req.fname = some f)
    (h4 : f ≠ "")
    (h5 : RouteTs.extAllowed f = false) :
    RouteTs.POST parse req = RouteTs.resp415 := by
  have hrej : RouteTs.fnameRejected req.fname = true := by
    rw [h3]
    simp [RouteTs.fnameRejected, h4, h5]
  have htext : RouteTs.POSTtext req = .error RouteTs.resp415 := by
    simp [RouteTs.POSTtext, h1, h2, hrej]
  unfold RouteTs.POST
  rw [htext]

/-- A small text file: present, tiny, wrong extension. -/
def badExtReq : ReviewRequest :=
  { filePresent := true
    fname := some "notes.txt"
    mime := none
    size := some 100
    pdfExtract := none
    docxExtract := none
    llmContent := none }

/-- Witness for the amended C6 at `badExtReq`. -/
theorem c6_witness :
    badExtReq.filePresent = true
    ∧ RouteTs.sizeTooLarge badExtReq.size = false
    ∧ badExtReq.fname = some "notes.txt"
    ∧ "notes.txt" ≠ ""
    ∧ RouteTs.extAllowed "notes.txt" = false
    ∧ RouteTs.POST parseNone badExtReq = RouteTs.resp415 :=
  ⟨rfl, rfl, rfl, by decide, rfl,
    c6_unsupported_extension_415 parseNone badExtReq "notes.txt" rfl rfl rfl (by decide) rfl⟩

/-- C7: when the gates pass and the extraction stage yields a text of fewer
than 20 characters, the handler answers 422 with the fixed JSON error body —
whatever the `parse` oracle, so the LLM reply is never consulted. -/
theorem c7_short_text_422 (parse : String → Option JsonValue)
    (req : ReviewRequest) (text : String)
    (h1 : req.filePresent = true)
    (h2 : RouteTs.sizeTooLarge req.size = false)
    (h3 : RouteTs.fnameRejected req.fname = false)
    (h4 : RouteTs.extractStage req = .ok text)
    (h5 : text.length < 20) :
    RouteTs.POST parse req = RouteTs.resp422short := by
  have htr : (jsTrim text).length < 20 :=
    Nat.lt_of_le_of_lt (jsTrim_length_le text) h5
  have htext : RouteTs.POSTtext req = .error RouteTs.resp422short := by
    simp [RouteTs.POSTtext, h1, h2, h3, h4]
    exact fun h6 => htr
  unfold RouteTs.POST
  rw [htext]

/-- A passing PDF upload whose extracted text has only 9 characters. -/
def shortTextReq : ReviewRequest :=
  { filePresent := true
    fname := some "contract.pdf"
    mime := some "application/pdf"
    size := some 1000
    pdfExtract := some "Too short"
    docxExtract := none
    llmContent := some "irrelevant" }

/-- Witness for C7 at `shortTextReq`. -/
theorem c7_witness :
    shortTextReq.filePresent = true
    ∧ RouteTs.sizeTooLarge shortTextReq.size = false
    ∧ RouteTs.fnameRejected shortTextReq.fname = false
    ∧ RouteTs.extractStage shortTextReq = .ok "Too short"
    ∧ ("Too short" : String).length < 20
    ∧ RouteTs.POST parseNone shortTextReq = RouteTs.resp422short :=
  ⟨rfl, rfl, rfl, rfl, by decide,
    c7_short_text_422 parseNone shortTextReq "Too short" rfl rfl rfl rfl (by decide)⟩

/-- C8: whenever the handler reaches the LLM call with extracted text `text`,
the contract text inside the forwarded user message and the `rawText` field
of the 200 response are one and the same string `jsSlice text 50000`, which
is the first 50,000 characters of `text` and equals all of `text` when
`text` is no longer than 50,000 characters. -/
theorem c8_truncation_consistency (parse : String → Option JsonValue)
    (req : ReviewRequest) (text : String)
    (h : RouteTs.POSTtext req = .ok text) :
    RouteTs.sentUserMessage req = some ("Contract text:\n\n" ++ jsSlice text 50000)
    ∧ bodyLookup (RouteTs.POST parse req) "rawText" = some (.str (jsSlice text 50000))
    ∧ jsSlice text 50000 = String.mk (text.data.take 50000)
    ∧ (text.length ≤ 50000 → jsSlice text 50000 = text) := by
  refine ⟨?_, ?_, rfl, ?_⟩
  · unfold RouteTs.sentUserMessage
    rw [h]
    rfl
  · have hP : RouteTs.POST parse req
        = RouteTs.mkSuccess parse req.llmContent (jsSlice text 50000) := by
      unfold RouteTs.POST
      rw [h]
    rw [hP, RouteTs.bodyLookup_mkSuccess_rawText]
  · intro hle
    unfold jsSlice
    rw [List.take_of_length_le hle]

/-- Witness for C8 at the concrete passing request `okReq`. -/
theorem c8_witness :
    RouteTs.POSTtext okReq = .ok "This agreement is made between A and B."
    ∧ (RouteTs.sentUserMessage okReq
        = some ("Contract text:\n\n" ++ jsSlice "This agreement is made between A and B." 50000)
      ∧ bodyLookup (RouteTs.POST parseNone okReq) "rawText"
        = some (.str (jsSlice "This agreement is made between A and B." 50000))
      ∧ jsSlice "This agreement is made between A and B." 50000
        = String.mk (("This agreement is made between A and B." : String).data.take 50000)
      ∧ (("This agreement is made between A and B." : String).length ≤ 50000 →
          jsSlice "This agreement is made between A and B." 50000
            = "This agreement is made between A and B.")) :=
  ⟨rfl, c8_truncation_consistency parseNone okReq _ rfl⟩

/-- C9 (amended): in every 200 response the `risks` field is a JSON array
(taken verbatim from the reply when the reply's `risks` is an array, empty
otherwise); its elements are not validated. -/
theorem c9_risks_is_array (parse : String → Option JsonValue)
    (req : ReviewRequest) (h : (RouteTs.POST parse req).status = 200) :
    ∃ xs, bodyLookup (RouteTs.POST parse req) "risks" = some (.arr xs) := by
  obtain ⟨text, -, heq⟩ := RouteTs.POST_200 parse req h
  rw [heq, RouteTs.bodyLookup_mkSuccess_risks]
  unfold RouteTs.risksOf
  cases hg : optGet (RouteTs.llmData parse req.llmContent) "risks" with
  | none => exact ⟨[], rfl⟩
  | some v =>
    cases v with
    | arr xs => exact ⟨xs, rfl⟩
    | null => exact ⟨[], rfl⟩
    | bool b => exact ⟨[], rfl⟩
    | num s => exact ⟨[], rfl⟩
    | str s => exact ⟨[], rfl⟩
    | obj o => exact ⟨[], rfl⟩

/-- Shape demanded of a risk entry by the claim: an object with a string
label, a level among Low, Med, High, and whatever else. -/
def riskShaped (v : JsonValue) : Prop :=
  ∃ fields label level, v = JsonValue.obj fields
    ∧ fields.lookup "label" = some (JsonValue.str label)
    ∧ fields.lookup "level" = some (JsonValue.str level)
    ∧ (level = "Low" ∨ level = "Med" ∨ level = "High")

/-- A `JSON.parse` oracle whose reply carries a bare number in `risks`. -/
def parseC9 : String → Option JsonValue := fun _ =>
  some (.obj [("risks", .arr [.num "42"])])

/-- Counterexample to C9 as stated: a reply whose `risks` array holds the
bare number 42 is passed through verbatim, so a 200 response can contain a
risk entry with no string label and no level. -/
theorem c9_counterexample :
    (RouteTs.POST parseC9 okReq).status = 200
    ∧ bodyLookup (RouteTs.POST parseC9 okReq) "risks" = some (.arr [.num "42"])
    ∧ ¬ riskShaped (.num "42") := by
  refine ⟨rfl, rfl, ?_⟩
  rintro ⟨fields, label, level, hv, -⟩
  simp at hv

/-- Witness for the amended C9 at the reply carrying a bare number. -/
theorem c9_witness :
    (RouteTs.POST parseC9 okReq).status = 200
    ∧ ∃ xs, bodyLookup (RouteTs.POST parseC9 okReq) "risks" = some (.arr xs) :=
  ⟨rfl, c9_risks_is_array parseC9 okReq rfl⟩

/-- C10: on every request and LLM reply, the handler of route.ts and the
handler of part_000 produce the same status code and the same JSON body;
they differ only in response headers (CORS and caching), which lie outside
the status/body model. -/
theorem c10_handlers_agree (parse : String → Option JsonValue) (req : ReviewRequest) :
    RouteTs.POST parse req = Part000.POST parse req := rfl
